import Mathlib

/-!
Shallow embedding of the TUS Santander MCP server route planner
(`src/api.js` and the tool handlers of `src/index.js`).

Modelling conventions:
* JS numbers flowing through the planner are `Option ℚ`, where `none`
  models `NaN` (so comparisons with `none` are false and arithmetic on
  `none` propagates it, as JS comparisons/arithmetic do with `NaN`).
* JSON string fields are `Option String`, where `none` models a missing
  field (`undefined` in JS).  The upstream feed delivers scalar fields as
  strings.
* `String.prototype.toUpperCase` is modelled per character (the feed's
  line labels are ASCII).
* Side effects outside the data path (the `tiempoConsulta` wall-clock
  timestamp of the returned plan, the network fetches themselves) are not
  part of the model; fetch RESULTS are explicit inputs, and the TTL cache
  is modelled as an explicit state-passing step function.
-/

namespace TusMcp

/-- JS number in the planner's data path: `none` models `NaN`. -/
abbrev JsNum := Option ℚ

/-- ASCII decimal digit test, as used by `parseInt` and `parseFloat`. -/
def isDigitCh (c : Char) : Bool := 48 ≤ c.toNat && c.toNat ≤ 57

/-- Leading whitespace skipped by `parseInt` and `parseFloat`. -/
def isSpaceCh (c : Char) : Bool :=
  c.toNat = 32 || c.toNat = 9 || c.toNat = 10 || c.toNat = 13 || c.toNat = 11 || c.toNat = 12

/-- Numeric value of a digit list, most significant digit first. -/
def digitsToNat (l : List Char) : Nat :=
  l.foldl (fun acc c => acc * 10 + (c.toNat - 48)) 0

/-- Strips an optional leading sign, returning the sign as `1` or `-1`. -/
def splitSign : List Char → Int × List Char
  | '-' :: t => (-1, t)
  | '+' :: t => (1, t)
  | t => (1, t)

/-- Models `parseInt(s)` in radix 10: skip whitespace, optional sign,
    longest digit prefix; `none` models `NaN` (no digit found).  Trailing
    non-digit characters are ignored, exactly as in JS. -/
def jsParseInt (s : String) : Option Int :=
  let cs := s.toList.dropWhile isSpaceCh
  let p := splitSign cs
  let ds := p.2.takeWhile isDigitCh
  if ds.isEmpty then none else some (p.1 * (digitsToNat ds : Int))

/-- Models `parseInt` applied to a possibly missing (`undefined`) value:
    `parseInt(undefined)` is `NaN`. -/
def jsParseIntOpt : Option String → Option Int
  | none => none
  | some s => jsParseInt s

/-- Models `parseFloat(s)`: skip whitespace, optional sign, decimal
    mantissa with optional fraction and optional exponent; `none` models
    `NaN` (no digit in the mantissa).  Trailing garbage is ignored. -/
def jsParseFloat (s : String) : JsNum :=
  let cs := s.toList.dropWhile isSpaceCh
  let p := splitSign cs
  let ip := p.2.takeWhile isDigitCh
  let r2 := p.2.drop ip.length
  let fp := match r2 with
    | '.' :: t => t.takeWhile isDigitCh
    | _ => []
  let r3 := match r2 with
    | '.' :: t => t.drop (t.takeWhile isDigitCh).length
    | _ => r2
  if ip.isEmpty && fp.isEmpty then none
  else
    let mant : ℚ := (digitsToNat ip : ℚ) + (digitsToNat fp : ℚ) / (10 : ℚ) ^ fp.length
    let ex : Int := match r3 with
      | c :: t =>
        if c = 'e' ∨ c = 'E' then
          let q := splitSign t
          let eds := q.2.takeWhile isDigitCh
          if eds.isEmpty then 0 else q.1 * (digitsToNat eds : Int)
        else 0
      | [] => 0
    some ((p.1 : ℚ) * mant * (10 : ℚ) ^ ex)

/-- Models `String.prototype.toUpperCase` on the feed's ASCII labels. -/
def jsToUpper (s : String) : String := String.mk (s.data.map Char.toUpper)

/-- JS `<=` on numbers: any comparison involving `NaN` is false. -/
def jsLe : JsNum → JsNum → Bool
  | some a, some b => a ≤ b
  | _, _ => false

/-- JS subtraction on numbers: `NaN` propagates. -/
def jsSub : JsNum → JsNum → JsNum
  | some a, some b => some (a - b)
  | _, _ => none

/-- Models `parseFloat(x.toFixed(2))`: rounding to the nearest hundredth
    (`NaN` stays `NaN`). -/
def jsRound2 : JsNum → JsNum
  | some a => some (((round (a * 100) : Int) : ℚ) / 100)
  | none => none

/-- Raw record of the `lineas_bus_secuencia` dataset, restricted to the
    fields the planner and `getSecuenciaLinea` read.  Every field is an
    `Option String` (`none` models a missing JSON key). -/
structure SeqRecord where
  /-- JSON key `dc:EtiquetaLinea`. -/
  etiquetaLinea : Option String := none
  /-- JSON key `ayto:Linea`. -/
  linea : Option String := none
  /-- JSON key `ayto:NombreSublinea`. -/
  sublinea : Option String := none
  /-- JSON key `ayto:Ruta`. -/
  ruta : Option String := none
  /-- JSON key `ayto:SentidoRuta`. -/
  sentidoRuta : Option String := none
  /-- JSON key `ayto:NParada`. -/
  nParada : Option String := none
  /-- JSON key `ayto:NombreParada`. -/
  nombreParada : Option String := none
  /-- JSON key `ayto:PuntoKM`. -/
  puntoKM : Option String := none
  /-- JSON key `ayto:PosX`. -/
  posX : Option String := none
  /-- JSON key `ayto:PosY`. -/
  posY : Option String := none
  /-- JSON key `dc:identifier`. -/
  id : Option String := none
  deriving DecidableEq, Inhabited

/-- Models the expression `s["dc:EtiquetaLinea"] ?? s["ayto:Linea"]`: the
    label field wins whenever it is present (even when it is `""`, which
    is not nullish). -/
def recLinea (s : SeqRecord) : Option String :=
  match s.etiquetaLinea with
  | some l => some l
  | none => s.linea

/-- Normalized per-stop sequence entry produced by the planner's
    `seqToEntry` arrow function. -/
structure SeqEntry where
  linea : Option String
  /-- Raw `ayto:SentidoRuta` value, unparsed. -/
  sentido : Option String
  puntoKm : JsNum
  nombreParada : Option String
  nParada : Option String
  deriving DecidableEq, Inhabited

/-- Models the `seqToEntry` arrow function inside `planificarRuta`
    (api.js): `linea` is `EtiquetaLinea ?? Linea`, `sentido` is the raw
    direction value, `puntoKm` is `parseFloat(PuntoKM ?? 0)` and
    `nParada` is `NParada?.toString()`. -/
def seqToEntry (s : SeqRecord) : SeqEntry :=
  { linea := recLinea s
    sentido := s.sentidoRuta
    puntoKm := match s.puntoKM with
      | none => some 0
      | some v => jsParseFloat v
    nombreParada := s.nombreParada
    nParada := s.nParada }

/-- Direction label derivation used both by `getSecuenciaLinea` and by
    the direct-route loop: `parseInt(raw) === 1 ? "ida" : "vuelta"`. -/
def dirLabel (sentidoRaw : Option String) : String :=
  if jsParseIntOpt sentidoRaw = some 1 then "ida" else "vuelta"

/-- Output row of the `.map` normalization step of `getSecuenciaLinea`. -/
structure SecuenciaEntry where
  linea : Option String
  etiquetaLinea : Option String
  sublinea : Option String
  ruta : Option String
  sentido : String
  sentidoNumerico : Option Int
  numeroParada : Option String
  nombreParada : Option String
  puntoKm : JsNum
  coordX : JsNum
  coordY : JsNum
  id : Option String
  deriving DecidableEq, Inhabited

/-- Models the record-normalization `.map` step of `getSecuenciaLinea`
    (api.js lines 127-140).  Total by construction: malformed input
    degrades to `NaN` fields, it never errors. -/
def secuenciaMapRecord (r : SeqRecord) : SecuenciaEntry :=
  { linea := r.linea
    etiquetaLinea := r.etiquetaLinea
    sublinea := r.sublinea
    ruta := r.ruta
    sentido := dirLabel r.sentidoRuta
    sentidoNumerico := jsParseIntOpt r.sentidoRuta
    numeroParada := r.nParada
    nombreParada := r.nombreParada
    puntoKm := match r.puntoKM with
      | none => some 0
      | some v => jsParseFloat v
    coordX := match r.posX with
      | none => some 0
      | some v => jsParseFloat v
    coordY := match r.posY with
      | none => some 0
      | some v => jsParseFloat v
    id := r.id }

/-- Raw record of the `control_flotas_estimaciones` snapshot, restricted
    to the only field `planificarRuta` reads from the full snapshot
    (`ayto:etiqLinea`, used to build the active-line set). -/
structure EstimRaw where
  /-- JSON key `ayto:etiqLinea`. -/
  etiqLinea : Option String := none
  deriving DecidableEq, Inhabited

/-- Mapped estimate for one (stop, line), restricted to the fields the
    direct-route annotation reads from `getEstimacionesByParada`'s
    output (api.js `mapEstimacion`). -/
structure BusEstimate where
  tiempoMinutos : Option Int := none
  llegada : Option String := none
  deriving DecidableEq, Inhabited

/-- One element of the `estimaciones` list fetched for the origin stop. -/
structure Estimacion where
  paradaId : Option String := none
  linea : Option String := none
  destino1 : Option String := none
  proximoBus : BusEstimate := {}
  deriving DecidableEq, Inhabited

/-- Keeps the first occurrence of each key and drops later same-key
    elements.  This is the semantics of the JS idiom
    `arr.filter((v, i, a) => a.findIndex(sameKeyAs v) === i)` used for
    direct-route dedup, and of iterating a JS `Set` (insertion order,
    first insertion wins).  The `seen` accumulator holds keys of already
    emitted elements. -/
def keepFirstByAux {α κ : Type} [DecidableEq κ] (key : α → κ) (seen : List κ) :
    List α → List α
  | [] => []
  | v :: rest =>
    if key v ∈ seen then keepFirstByAux key seen rest
    else v :: keepFirstByAux key (key v :: seen) rest

/-- Keep-first-occurrence dedup by a key function. -/
def keepFirstBy {α κ : Type} [DecidableEq κ] (key : α → κ) (l : List α) : List α :=
  keepFirstByAux key [] l

/-- Stop reference with a definite number and an optional name, as built
    for the endpoint stops of the returned candidates. -/
structure StopRefD where
  numero : String
  nombre : Option String
  deriving DecidableEq, Inhabited

/-- Stop reference for a transfer stop: its number is the map key `pi`,
    an optionally missing string. -/
structure StopRefT where
  numero : Option String
  nombre : Option String
  deriving DecidableEq, Inhabited

/-- Origin reference of a transfer's first leg: its name falls back to
    the origin stop id (`?? paradaOrigenId`), hence always a string. -/
structure StopRefO where
  numero : String
  nombre : String
  deriving DecidableEq, Inhabited

/-- Next-bus annotation of a direct candidate. -/
structure ProximoBusInfo where
  tiempoMinutos : Option Int
  llegadaEstimada : Option String
  destino : Option String
  deriving DecidableEq, Inhabited

/-- Direct route candidate (`tipo: "directa"`). -/
structure RutaDirecta where
  tipo : String
  linea : Option String
  sentido : String
  paradaOrigen : StopRefD
  paradaDestino : StopRefD
  distanciaKm : JsNum
  proximoBus : Option ProximoBusInfo
  deriving DecidableEq, Inhabited

/-- First leg of a transfer candidate. -/
structure Tramo1 where
  linea : Option String
  paradaOrigen : StopRefO
  paradaTransbordo : StopRefT
  deriving DecidableEq, Inhabited

/-- Second leg of a transfer candidate. -/
structure Tramo2 where
  linea : Option String
  paradaTransbordo : StopRefT
  paradaDestino : StopRefD
  deriving DecidableEq, Inhabited

/-- Transfer route candidate (`tipo: "transbordo"`). -/
structure RutaTransbordo where
  tipo : String
  tramo1 : Tramo1
  tramo2 : Tramo2
  deriving DecidableEq, Inhabited

/-- Result of `planificarRuta`.  The non-deterministic `tiempoConsulta`
    wall-clock field is outside the model. -/
structure RoutePlan where
  origen : String
  destino : String
  rutasDirectas : List RutaDirecta
  rutasConTransbordo : List RutaTransbordo
  deriving DecidableEq, Inhabited

/-- Explicit inputs of one `planificarRuta` call: the stop ids and the
    result of each network fetch the function performs. -/
structure PlanInput where
  paradaOrigenId : String
  paradaDestinoId : String
  /-- Sequence records mentioning the origin stop (`resOrigen.resources`). -/
  resOrigen : List SeqRecord := []
  /-- Sequence records mentioning the destination stop. -/
  resDestino : List SeqRecord := []
  /-- Full sequences of the lines serving the origin, as fetched when the
      origin line set is non-empty (`resSeqLineasOrigen.resources`). -/
  resSeqLineasOrigen : List SeqRecord := []
  /-- Full sequences of the lines serving the destination. -/
  resSeqLineasDestino : List SeqRecord := []
  /-- Mapped estimates at the origin stop (`getEstimacionesByParada`). -/
  estimaciones : List Estimacion := []
  /-- Resources of the full cached estimates snapshot. -/
  todasEstimaciones : List EstimRaw := []
  deriving DecidableEq, Inhabited

/-- The origin-stop sequence entries (`lineasOrigen` in api.js). -/
def lineasOrigen (inp : PlanInput) : List SeqEntry := inp.resOrigen.map seqToEntry

/-- The destination-stop sequence entries (`lineasDestino` in api.js). -/
def lineasDestino (inp : PlanInput) : List SeqEntry := inp.resDestino.map seqToEntry

/-- Distinct truthy line labels at the origin:
    `[...new Set(lineasOrigen.map(e => e.linea).filter(Boolean))]`.
    `filter(Boolean)` drops both missing labels and `""`. -/
def lineasUnicasOrigen (inp : PlanInput) : List String :=
  keepFirstBy id (((lineasOrigen inp).filterMap SeqEntry.linea).filter (fun l => l ≠ ""))

/-- Distinct truthy line labels at the destination. -/
def lineasUnicasDestino (inp : PlanInput) : List String :=
  keepFirstBy id (((lineasDestino inp).filterMap SeqEntry.linea).filter (fun l => l ≠ ""))

/-- The `seqs` list: full origin-line sequences, or `[]` when no origin
    line exists (the code then skips the fetch and uses an empty
    resource list). -/
def seqsOrigen (inp : PlanInput) : List SeqRecord :=
  if lineasUnicasOrigen inp = [] then [] else inp.resSeqLineasOrigen

/-- Full destination-line sequences under the same emptiness guard. -/
def seqsDestino (inp : PlanInput) : List SeqRecord :=
  if lineasUnicasDestino inp = [] then [] else inp.resSeqLineasDestino

/-- The active-line set `lineasActivas`: uppercased `ayto:etiqLinea`
    labels of the snapshot, with missing values and `""` dropped by
    `filter(Boolean)`.  Modelled as a list; only membership is used. -/
def lineasActivas (inp : PlanInput) : List String :=
  ((inp.todasEstimaciones.filterMap EstimRaw.etiqLinea).map jsToUpper).filter (fun l => l ≠ "")

/-- Models `lineasActivas.has(x)` where `x` is a possibly-undefined
    uppercased label: `has(undefined)` is false because the set only
    holds truthy strings. -/
def hasActiva (activas : List String) : Option String → Bool
  | some s => s ∈ activas
  | none => false

/-- One direct candidate pushed for a qualifying `(lo, ld)` pair,
    including the next-bus annotation from the origin-stop estimates
    (api.js lines 385-409). -/
def directCandidate (inp : PlanInput) (lo ld : SeqEntry) : RutaDirecta :=
  let estOrigen := inp.estimaciones.filter fun e =>
    e.paradaId == some inp.paradaOrigenId &&
      (e.linea.map jsToUpper) == (lo.linea.map jsToUpper)
  { tipo := "directa"
    linea := lo.linea
    sentido := dirLabel lo.sentido
    paradaOrigen := { numero := inp.paradaOrigenId, nombre := lo.nombreParada }
    paradaDestino := { numero := inp.paradaDestinoId, nombre := ld.nombreParada }
    distanciaKm := jsRound2 (jsSub ld.puntoKm lo.puntoKm)
    proximoBus := match estOrigen with
      | [] => none
      | e :: _ => some { tiempoMinutos := e.proximoBus.tiempoMinutos
                         llegadaEstimada := e.proximoBus.llegada
                         destino := e.destino1 } }

/-- The `rutasDirectas` accumulator after the double loop over origin
    entries (outer) and destination entries (inner), in push order
    (api.js lines 380-413). -/
def rutasDirectasAll (inp : PlanInput) : List RutaDirecta :=
  (lineasOrigen inp).flatMap fun lo =>
    (lineasDestino inp).filterMap fun ld =>
      if lo.linea = ld.linea ∧ lo.sentido = ld.sentido ∧ jsLe lo.puntoKm ld.puntoKm = true then
        some (directCandidate inp lo ld)
      else none

/-- Dedup key of the direct-route filter: `(t.linea, t.sentido)`. -/
def dirKey (v : RutaDirecta) : Option String × String := (v.linea, v.sentido)

/-- Models `rutasDirectasUnicas` (api.js lines 416-420): keep an element
    iff it is the first occurrence of its `(linea, sentido)` key
    (`a.findIndex(...) === i`) and its uppercased line label is in the
    active set. -/
def rutasDirectasUnicas (inp : PlanInput) : List RutaDirecta :=
  (keepFirstBy dirKey (rutasDirectasAll inp)).filter fun v =>
    hasActiva (lineasActivas inp) (v.linea.map jsToUpper)

/-- Concatenated origin-line and destination-line sequence records, the
    iteration base of the `paradaALineas` map construction. -/
def combinedSeqs (inp : PlanInput) : List SeqRecord := seqsOrigen inp ++ seqsDestino inp

/-- Models `paradaALineas.get(pi) ?? []`: all normalized entries whose
    `NParada` equals the key, in insertion order.  Falsy keys
    (`undefined` and `""`) are never inserted (`if (!nParada) continue`),
    so looking them up yields `[]`. -/
def paradaEntries (inp : PlanInput) : Option String → List SeqEntry
  | none => []
  | some p =>
    if p = "" then []
    else (combinedSeqs inp).filterMap fun s =>
      if s.nParada = some p then some (seqToEntry s) else none

/-- The `paradasIntermedias` set: `NParada` values of `seqs` records
    whose line is the line of some origin entry, in first-insertion
    order (api.js lines 427-434). -/
def paradasIntermedias (inp : PlanInput) : List (Option String) :=
  keepFirstBy id ((seqsOrigen inp).filterMap fun s =>
    if (lineasOrigen inp).any (fun lo => lo.linea == recLinea s) then some s.nParada else none)

/-- Predicate of the `seqs.find(...)` lookup selecting the leg-1 record
    at the transfer stop `pi`: same stop and a line shared with some
    origin entry (api.js lines 450-456). -/
def findPredOrigen (inp : PlanInput) (pi : Option String) (s : SeqRecord) : Bool :=
  s.nParada == pi && (lineasOrigen inp).any fun lo => lo.linea == recLinea s

/-- One transfer candidate pushed for transfer stop `pi`, leg-2 pair
    `(li, ld)` and leg-1 record `so` (api.js lines 461-487). -/
def transferCandidate (inp : PlanInput) (pi : Option String) (li ld : SeqEntry)
    (so : SeqRecord) : RutaTransbordo :=
  { tipo := "transbordo"
    tramo1 := { linea := recLinea so
                paradaOrigen :=
                  { numero := inp.paradaOrigenId
                    nombre := ((((lineasOrigen inp).find? fun lo =>
                        lo.linea == recLinea so).bind SeqEntry.nombreParada).getD
                      inp.paradaOrigenId) }
                paradaTransbordo := { numero := pi, nombre := so.nombreParada } }
    tramo2 := { linea := li.linea
                paradaTransbordo := { numero := pi, nombre := li.nombreParada }
                paradaDestino := { numero := inp.paradaDestinoId, nombre := ld.nombreParada } } }

/-- The `rutasTransbordo` accumulator: computed only when the deduped,
    active-filtered direct list is empty, in discovery order over
    transfer stops, their entries and destination entries
    (api.js lines 423-492). -/
def rutasTransbordoAll (inp : PlanInput) : List RutaTransbordo :=
  if (rutasDirectasUnicas inp).isEmpty then
    (paradasIntermedias inp).flatMap fun pi =>
      if pi = some inp.paradaOrigenId ∨ pi = some inp.paradaDestinoId then []
      else (paradaEntries inp pi).flatMap fun li =>
        (lineasDestino inp).filterMap fun ld =>
          if li.linea = ld.linea ∧ li.sentido = ld.sentido ∧
              jsLe li.puntoKm ld.puntoKm = true then
            ((seqsOrigen inp).find? (findPredOrigen inp pi)).map
              (transferCandidate inp pi li ld)
          else none
  else []

/-- Both legs of a transfer candidate are on active lines. -/
def transferActivo (inp : PlanInput) (r : RutaTransbordo) : Bool :=
  hasActiva (lineasActivas inp) (r.tramo1.linea.map jsToUpper) &&
    hasActiva (lineasActivas inp) (r.tramo2.linea.map jsToUpper)

/-- Models `rutasTransbordoActivas` (api.js lines 495-499). -/
def rutasTransbordoActivas (inp : PlanInput) : List RutaTransbordo :=
  (rutasTransbordoAll inp).filter (transferActivo inp)

/-- The route planner `planificarRuta` (api.js lines 312-508) as a pure
    function of its fetched inputs. -/
def planificarRuta (inp : PlanInput) : RoutePlan :=
  { origen := inp.paradaOrigenId
    destino := inp.paradaDestinoId
    rutasDirectas := rutasDirectasUnicas inp
    rutasConTransbordo := (rutasTransbordoActivas inp).take 5 }

/-- Stored result of one full estimates fetch (`fetchAllPages` output). -/
structure FetchResult where
  total : Int := 0
  resources : List EstimRaw := []
  deriving DecidableEq, Inhabited

/-- State of the module-level `_cache` singleton: `data` is `null` at
    process start (`none`) and `ts` is the stored fetch time in
    milliseconds. -/
structure CacheState where
  data : Option FetchResult
  ts : Int
  deriving DecidableEq, Inhabited

/-- Result of one `getTodasEstimacionesCached()` call: what it returns,
    the cache state it leaves behind, and whether it performed a fetch. -/
structure CacheStep where
  result : FetchResult
  state : CacheState
  didFetch : Bool
  deriving DecidableEq, Inhabited

/-- The cache TTL `CACHE_TTL_MS` (30 s, in milliseconds). -/
def CACHE_TTL_MS : Int := 30000

/-- Models `getTodasEstimacionesCached` (api.js lines 297-304) with the
    clock and the fetch result made explicit: return the stored snapshot
    when one exists and is fresh, otherwise fetch, store and return.
    `didFetch` counts the fetches of this call (always exactly one on the
    miss path, zero on the hit path). -/
def getTodasEstimacionesCached (st : CacheState) (now : Int) (fetched : FetchResult) :
    CacheStep :=
  match st.data with
  | some d =>
    if now - st.ts < CACHE_TTL_MS then { result := d, state := st, didFetch := false }
    else { result := fetched, state := { data := some fetched, ts := now }, didFetch := true }
  | none =>
    { result := fetched, state := { data := some fetched, ts := now }, didFetch := true }

/-- Stop record as returned by `buscarParadas`, restricted to the field
    the `ruta_desde_nombres` handler forwards to the core planner. -/
structure Parada where
  numero : String
  nombre : Option String := none
  deriving DecidableEq, Inhabited

/-- Models the guard of the `planificar_ruta` tool handler
    (index.js lines 355-360): the pair of ids the core is invoked with,
    or `none` when the request is rejected (`err(...)`) because the two
    ids are equal. -/
def planificarRutaToolCall (parada_origen parada_destino : String) :
    Option (String × String) :=
  if parada_origen = parada_destino then none
  else some (parada_origen, parada_destino)

/-- Models the call decision of the `ruta_desde_nombres` tool handler
    (index.js lines 392-415) as a function of the two search results: it
    rejects only empty search results and otherwise invokes the core
    with the numbers of the first hit on each side, without comparing
    them. -/
def rutaDesdeNombresCall : List Parada → List Parada → Option (String × String)
  | [], _ => none
  | _ :: _, [] => none
  | pO :: _, pD :: _ => some (pO.numero, pD.numero)

/-- Example origin-stop sequence record: stop 539 on line 15, outbound,
    km 1.2 (the concrete scenario of the spec's testable properties). -/
def recOrigen15 : SeqRecord :=
  { etiquetaLinea := some "15", sentidoRuta := some "1", puntoKM := some "1.2",
    nParada := some "539", nombreParada := some "Origen A" }

/-- Example destination-stop sequence record: stop 1234 on line 15,
    outbound, km 4.7. -/
def recDestino15 : SeqRecord :=
  { etiquetaLinea := some "15", sentidoRuta := some "1", puntoKM := some "4.7",
    nParada := some "1234", nombreParada := some "Destino B" }

/-- Planner input with one direct line 15 connection and line 15 active. -/
def exDirect : PlanInput :=
  { paradaOrigenId := "539", paradaDestinoId := "1234",
    resOrigen := [recOrigen15], resDestino := [recDestino15],
    resSeqLineasOrigen := [recOrigen15, recDestino15],
    resSeqLineasDestino := [recOrigen15, recDestino15],
    todasEstimaciones := [{ etiqLinea := some "15" }] }

/-- The single direct candidate the planner finds on `exDirect`. -/
def exDirectCand : RutaDirecta := (planificarRuta exDirect).rutasDirectas.headI

/-- Same geometry as `exDirect` but the snapshot only reports line 3, so
    no line serving both stops is active. -/
def exInactive : PlanInput :=
  { paradaOrigenId := "539", paradaDestinoId := "1234",
    resOrigen := [recOrigen15], resDestino := [recDestino15],
    resSeqLineasOrigen := [recOrigen15, recDestino15],
    resSeqLineasDestino := [recOrigen15, recDestino15],
    todasEstimaciones := [{ etiqLinea := some "3" }] }

/-- Origin-stop record whose line label is the empty string. -/
def recOrigenVacio : SeqRecord :=
  { etiquetaLinea := some "", sentidoRuta := some "1", puntoKM := some "0",
    nParada := some "1" }

/-- Destination-stop record on the same empty-labelled line, further on. -/
def recDestinoVacio : SeqRecord :=
  { etiquetaLinea := some "", sentidoRuta := some "1", puntoKM := some "1",
    nParada := some "2" }

/-- Planner input where the only shared line has the empty label and the
    snapshot contains a record with that same empty label. -/
def exEtiquetaVacia : PlanInput :=
  { paradaOrigenId := "1", paradaDestinoId := "2",
    resOrigen := [recOrigenVacio], resDestino := [recDestinoVacio],
    todasEstimaciones := [{ etiqLinea := some "" }] }

/-- Origin record of the transfer scenario: stop 1 on line 7. -/
def recT1 : SeqRecord :=
  { etiquetaLinea := some "7", sentidoRuta := some "1", puntoKM := some "0",
    nParada := some "1", nombreParada := some "Origen T" }

/-- Line 7 also serves the intermediate stop 200 further along. -/
def recT7i : SeqRecord :=
  { etiquetaLinea := some "7", sentidoRuta := some "1", puntoKM := some "3",
    nParada := some "200", nombreParada := some "Transbordo" }

/-- Line 12 serves the intermediate stop 200. -/
def recT12i : SeqRecord :=
  { etiquetaLinea := some "12", sentidoRuta := some "1", puntoKM := some "1",
    nParada := some "200", nombreParada := some "Transbordo" }

/-- Destination record of the transfer scenario: stop 2 on line 12. -/
def recT2 : SeqRecord :=
  { etiquetaLinea := some "12", sentidoRuta := some "1", puntoKM := some "5",
    nParada := some "2", nombreParada := some "Destino T" }

/-- Planner input with no direct line but a one-transfer itinerary
    (line 7 to stop 200, then line 12), both lines active. -/
def exTransfer : PlanInput :=
  { paradaOrigenId := "1", paradaDestinoId := "2",
    resOrigen := [recT1], resDestino := [recT2],
    resSeqLineasOrigen := [recT1, recT7i],
    resSeqLineasDestino := [recT12i, recT2],
    todasEstimaciones := [{ etiqLinea := some "7" }, { etiqLinea := some "12" }] }

/-- The single transfer candidate the planner finds on `exTransfer`. -/
def exTransferCand : RutaTransbordo := (planificarRuta exTransfer).rutasConTransbordo.headI

/-- Sequence record with direction `"01"` (parses to 1 but differs from
    the raw value `"1"`) and an unparseable position metric. -/
def recMalformado : SeqRecord := { sentidoRuta := some "01", puntoKM := some "abc" }

/-- Sequence record with every field missing. -/
def recVacio : SeqRecord := {}

/-- Sequence record whose coordinate fields are present but
    unparseable. -/
def recCoordMalformada : SeqRecord := { posX := some "abc", posY := some "xyz" }

/-- Example search hit used to drive the name-based planning handler. -/
def paradaValdecilla : Parada := { numero := "539", nombre := some "Valdecilla" }

/-- Snapshot stored in the cache examples. -/
def fr0 : FetchResult := {}

/-- Snapshot returned by the fetch in the cache examples. -/
def fr1 : FetchResult := { total := 1, resources := [{ etiqLinea := some "15" }] }

section DedupLemmas

variable {α κ : Type} [DecidableEq κ] {key : α → κ}

/-- Every element emitted by the dedup is an element of the input whose
    key was not previously seen. -/
theorem keepFirstByAux_mem_notseen {seen : List κ} {l : List α} {x : α}
    (h : x ∈ keepFirstByAux key seen l) : x ∈ l ∧ key x ∉ seen := by
  induction l generalizing seen with
  | nil => simp [keepFirstByAux] at h
  | cons v rest ih =>
    simp only [keepFirstByAux] at h
    by_cases hv : key v ∈ seen
    · rw [if_pos hv] at h
      rcases ih h with ⟨h1, h2⟩
      exact ⟨List.mem_cons_of_mem _ h1, h2⟩
    · rw [if_neg hv] at h
      rcases List.mem_cons.mp h with rfl | h'
      · exact ⟨List.mem_cons_self _ _, hv⟩
      · rcases ih h' with ⟨h1, h2⟩
        refine ⟨List.mem_cons_of_mem _ h1, fun hs => h2 (List.mem_cons_of_mem _ hs)⟩

/-- The dedup output never holds two elements with the same key. -/
theorem keepFirstByAux_pairwise (seen : List κ) (l : List α) :
    (keepFirstByAux key seen l).Pairwise fun a b => key a ≠ key b := by
  induction l generalizing seen with
  | nil => simp [keepFirstByAux]
  | cons v rest ih =>
    simp only [keepFirstByAux]
    by_cases hv : key v ∈ seen
    · rw [if_pos hv]; exact ih seen
    · rw [if_neg hv]
      refine List.Pairwise.cons ?_ (ih _)
      intro b hb he
      exact (keepFirstByAux_mem_notseen hb).2 (he ▸ List.mem_cons_self _ _)

/-- Every emitted element is the first element of the input with its
    key (the `findIndex === i` semantics). -/
theorem keepFirstByAux_find? {seen : List κ} {l : List α} {x : α}
    (h : x ∈ keepFirstByAux key seen l) :
    l.find? (fun t => decide (key t = key x)) = some x := by
  induction l generalizing seen with
  | nil => simp [keepFirstByAux] at h
  | cons v rest ih =>
    simp only [keepFirstByAux] at h
    by_cases hv : key v ∈ seen
    · rw [if_pos hv] at h
      have hx := (keepFirstByAux_mem_notseen h).2
      have hne : ¬ key v = key x := fun he => hx (he ▸ hv)
      rw [List.find?_cons_of_neg _ (by simpa using hne)]
      exact ih h
    · rw [if_neg hv] at h
      rcases List.mem_cons.mp h with rfl | h'
      · exact List.find?_cons_of_pos _ (by simp)
      · have hx := (keepFirstByAux_mem_notseen h').2
        have hne : ¬ key v = key x := fun he => hx (he ▸ List.mem_cons_self _ _)
        rw [List.find?_cons_of_neg _ (by simpa using hne)]
        exact ih h'

/-- Every input element with an unseen key is represented in the dedup
    output by some element of the same key. -/
theorem keepFirstByAux_exists {seen : List κ} {l : List α} {a : α}
    (ha : a ∈ l) (hs : key a ∉ seen) :
    ∃ x ∈ keepFirstByAux key seen l, key x = key a := by
  induction l generalizing seen with
  | nil => simp at ha
  | cons v rest ih =>
    simp only [keepFirstByAux]
    by_cases hv : key v ∈ seen
    · rw [if_pos hv]
      rcases List.mem_cons.mp ha with rfl | h'
      · exact absurd hv hs
      · exact ih h' hs
    · rw [if_neg hv]
      by_cases hk : key a = key v
      · exact ⟨v, List.mem_cons_self _ _, hk.symm⟩
      · rcases List.mem_cons.mp ha with rfl | h'
        · exact absurd rfl hk
        · rcases ih h' (fun hmem => (List.mem_cons.mp hmem).elim hk hs) with
            ⟨x, hx1, hx2⟩
          exact ⟨x, List.mem_cons_of_mem _ hx1, hx2⟩

/-- Membership in the keep-first dedup implies membership in the input. -/
theorem keepFirstBy_subset {l : List α} {x : α} (h : x ∈ keepFirstBy key l) : x ∈ l :=
  (keepFirstByAux_mem_notseen h).1

/-- The keep-first dedup output has pairwise distinct keys. -/
theorem keepFirstBy_pairwise (l : List α) :
    (keepFirstBy key l).Pairwise fun a b => key a ≠ key b :=
  keepFirstByAux_pairwise [] l

/-- Every dedup-output element is the first input element of its key. -/
theorem keepFirstBy_find? {l : List α} {x : α} (h : x ∈ keepFirstBy key l) :
    l.find? (fun t => decide (key t = key x)) = some x :=
  keepFirstByAux_find? h

/-- Every key of the input is represented in the dedup output. -/
theorem keepFirstBy_exists {l : List α} {a : α} (ha : a ∈ l) :
    ∃ x ∈ keepFirstBy key l, key x = key a :=
  keepFirstByAux_exists ha (by simp)

end DedupLemmas

/-- A candidate is in the raw direct-route accumulator exactly when it is
    the candidate of a qualifying origin-destination entry pair. -/
theorem mem_rutasDirectasAll {inp : PlanInput} {c : RutaDirecta} :
    c ∈ rutasDirectasAll inp ↔
      ∃ lo ∈ lineasOrigen inp, ∃ ld ∈ lineasDestino inp,
        (lo.linea = ld.linea ∧ lo.sentido = ld.sentido ∧
          jsLe lo.puntoKm ld.puntoKm = true) ∧
        c = directCandidate inp lo ld := by
  simp only [rutasDirectasAll, List.mem_flatMap, List.mem_filterMap]
  constructor
  · rintro ⟨lo, hlo, ld, hld, hc⟩
    split at hc
    · next hg => exact ⟨lo, hlo, ld, hld, hg, (Option.some_inj.mp hc).symm⟩
    · exact absurd hc (by simp)
  · rintro ⟨lo, hlo, ld, hld, hg, rfl⟩
    exact ⟨lo, hlo, ld, hld, by rw [if_pos hg]⟩

/-- Every transfer candidate comes from some transfer stop `pi`, some
    leg-2 pair and the first origin-line record found at `pi`. -/
theorem mem_rutasTransbordoAll {inp : PlanInput} {c : RutaTransbordo}
    (h : c ∈ rutasTransbordoAll inp) :
    ∃ pi li ld s, (seqsOrigen inp).find? (findPredOrigen inp pi) = some s ∧
      c = transferCandidate inp pi li ld s := by
  unfold rutasTransbordoAll at h
  split at h
  · simp only [List.mem_flatMap] at h
    obtain ⟨pi, hpi, h⟩ := h
    split at h
    · simp at h
    · simp only [List.mem_flatMap, List.mem_filterMap] at h
      obtain ⟨li, hli, ld, hld, h⟩ := h
      split at h
      · obtain ⟨s, hs, hc⟩ := Option.map_eq_some'.mp h
        exact ⟨pi, li, ld, s, hs, hc.symm⟩
      · simp at h
  · simp at h

/-- Unfolding of a true `hasActiva` check applied to an uppercased
    optional label. -/
theorem hasActiva_map_eq_true {activas : List String} {o : Option String}
    (h : hasActiva activas (o.map jsToUpper) = true) :
    ∃ l, o = some l ∧ jsToUpper l ∈ activas := by
  cases o with
  | none => simp [hasActiva] at h
  | some l => exact ⟨l, rfl, by simpa [hasActiva] using h⟩

/-- Rounding a non-negative rational to two decimals stays non-negative. -/
theorem jsRound2_arg_nonneg {a : ℚ} (h : 0 ≤ a) :
    0 ≤ ((round (a * 100) : Int) : ℚ) / 100 := by
  have h1 : (0 : Int) ≤ round (a * 100) := by
    rw [round_eq]
    exact Int.le_floor.mpr (by push_cast; linarith)
  have h2 : (0 : ℚ) ≤ ((round (a * 100) : Int) : ℚ) := by exact_mod_cast h1
  linarith

/-- C2: transfer-route search runs only when the deduplicated,
    active-filtered direct-route list is empty; whenever the returned
    `rutasDirectas` is non-empty, the returned `rutasConTransbordo` is
    empty, regardless of what transfer itineraries would otherwise
    exist. -/
theorem c2_no_transfers_when_direct (inp : PlanInput)
    (h : (planificarRuta inp).rutasDirectas ≠ []) :
    (planificarRuta inp).rutasConTransbordo = [] := by
  have hne : (rutasDirectasUnicas inp).isEmpty = false := by
    simpa [planificarRuta, List.isEmpty_iff] using h
  simp [planificarRuta, rutasTransbordoActivas, rutasTransbordoAll, hne]

unseal Rat.mul Rat.add Rat.inv Rat.sub in
/-- Witness for C2: on the concrete direct-route input a direct route
    exists, so the transfer list is empty. -/
theorem c2_no_transfers_when_direct_witness :
    (planificarRuta exDirect).rutasConTransbordo = [] :=
  c2_no_transfers_when_direct exDirect (by decide)

/-- C3: the returned `rutasDirectas` never contains two entries with the
    same `(linea, sentido)` pair, and each returned entry is the first
    candidate with its key in the iteration order over origin entries
    (outer) then destination entries (inner). -/
theorem c3_dedup_keeps_first (inp : PlanInput) :
    ((planificarRuta inp).rutasDirectas.Pairwise fun a b => dirKey a ≠ dirKey b) ∧
    ∀ c ∈ (planificarRuta inp).rutasDirectas,
      (rutasDirectasAll inp).find? (fun t => decide (dirKey t = dirKey c)) = some c := by
  constructor
  · exact List.Pairwise.filter _ (keepFirstBy_pairwise (rutasDirectasAll inp))
  · intro c hc
    have hc' : c ∈ keepFirstBy dirKey (rutasDirectasAll inp) :=
      (List.mem_filter.mp hc).1
    exact keepFirstBy_find? hc'

unseal Rat.mul Rat.add Rat.inv Rat.sub in
/-- Witness for C3: the surviving concrete candidate is the first
    candidate of its key in the raw accumulator. -/
theorem c3_dedup_keeps_first_witness :
    (rutasDirectasAll exDirect).find? (fun t => decide (dirKey t = dirKey exDirectCand)) =
      some exDirectCand :=
  (c3_dedup_keeps_first exDirect).2 exDirectCand (by decide)

/-- C4: every returned direct route has its uppercased line label in the
    active-line set derived from the snapshot; and when the active set
    excludes every line serving both stops, `rutasDirectas` is empty even
    if a geometrically valid direct line exists. -/
theorem c4_only_active_directs (inp : PlanInput) :
    (∀ c ∈ (planificarRuta inp).rutasDirectas,
        ∃ l, c.linea = some l ∧ jsToUpper l ∈ lineasActivas inp) ∧
    ((∀ lo ∈ lineasOrigen inp, ∀ ld ∈ lineasDestino inp, lo.linea = ld.linea →
        hasActiva (lineasActivas inp) (lo.linea.map jsToUpper) = false) →
      (planificarRuta inp).rutasDirectas = []) := by
  constructor
  · intro c hc
    exact hasActiva_map_eq_true (List.mem_filter.mp hc).2
  · intro hex
    show (keepFirstBy dirKey (rutasDirectasAll inp)).filter _ = []
    rw [List.filter_eq_nil_iff]
    intro v hv
    obtain ⟨lo, hlo, ld, hld, hg, rfl⟩ :=
      mem_rutasDirectasAll.mp (keepFirstBy_subset hv)
    have hfa := hex lo hlo ld hld hg.1
    simp only [directCandidate]
    simp only [hasActiva] at hfa ⊢
    intro hcontra
    rw [hfa] at hcontra
    exact Bool.false_ne_true hcontra

unseal Rat.mul Rat.add Rat.inv Rat.sub in
/-- Witness for C4: the concrete surviving candidate's line is active,
    and with a snapshot reporting only line 3 the same geometry yields no
    direct route. -/
theorem c4_only_active_directs_witness :
    (∃ l, exDirectCand.linea = some l ∧ jsToUpper l ∈ lineasActivas exDirect) ∧
    (planificarRuta exInactive).rutasDirectas = [] :=
  ⟨(c4_only_active_directs exDirect).1 exDirectCand (by decide),
   (c4_only_active_directs exInactive).2 (by decide)⟩

/-- C1 (amended): if some origin entry and some destination entry share
    a present line label and raw direction with the origin's position
    metric JS-`<=` the destination's, and the line's uppercased label
    appears in some snapshot record AND is non-empty (the code's
    `filter(Boolean)` drops the empty label from the active set), then
    the returned `rutasDirectas` contains a candidate with that line and
    that direction. -/
theorem c1_direct_candidate_exists (inp : PlanInput) (lo ld : SeqEntry) (l e : String)
    (hlo : lo ∈ lineasOrigen inp) (hld : ld ∈ lineasDestino inp)
    (h1 : lo.linea = some l) (h2 : ld.linea = some l) (h3 : lo.sentido = ld.sentido)
    (h4 : jsLe lo.puntoKm ld.puntoKm = true)
    (h5 : ∃ r ∈ inp.todasEstimaciones, r.etiqLinea = some e ∧ jsToUpper e = jsToUpper l)
    (h6 : jsToUpper l ≠ "") :
    ∃ c ∈ (planificarRuta inp).rutasDirectas,
      c.linea = some l ∧ c.sentido = dirLabel lo.sentido := by
  have hall : directCandidate inp lo ld ∈ rutasDirectasAll inp :=
    mem_rutasDirectasAll.mpr ⟨lo, hlo, ld, hld, ⟨h1.trans h2.symm, h3, h4⟩, rfl⟩
  obtain ⟨x, hx, hkey⟩ :=
    @keepFirstBy_exists RutaDirecta (Option String × String) _ dirKey
      (rutasDirectasAll inp) (directCandidate inp lo ld) hall
  have hkey' : (x.linea, x.sentido) = (lo.linea, dirLabel lo.sentido) := by
    simpa [dirKey, directCandidate] using hkey
  have hxl : x.linea = some l := by
    have := congrArg Prod.fst hkey'
    simpa [h1] using this
  have hxs : x.sentido = dirLabel lo.sentido := congrArg Prod.snd hkey'
  have hact : jsToUpper l ∈ lineasActivas inp := by
    obtain ⟨r, hr, hre, hupper⟩ := h5
    refine List.mem_filter.mpr ⟨?_, by simpa using h6⟩
    exact List.mem_map.mpr ⟨e, List.mem_filterMap.mpr ⟨r, hr, hre⟩, hupper⟩
  refine ⟨x, ?_, hxl, hxs⟩
  show x ∈ (keepFirstBy dirKey (rutasDirectasAll inp)).filter _
  refine List.mem_filter.mpr ⟨hx, ?_⟩
  rw [hxl]
  simpa [hasActiva] using hact

unseal Rat.mul Rat.add Rat.inv Rat.sub in
/-- Witness for C1: instantiated on the concrete line-15 scenario. -/
theorem c1_direct_candidate_exists_witness :
    ∃ c ∈ (planificarRuta exDirect).rutasDirectas,
      c.linea = some "15" ∧ c.sentido = dirLabel (seqToEntry recOrigen15).sentido :=
  c1_direct_candidate_exists exDirect (seqToEntry recOrigen15) (seqToEntry recDestino15)
    "15" "15" (by decide) (by decide) (by decide) (by decide) (by decide)
    (by decide) (by decide) (by decide)

unseal Rat.mul Rat.add Rat.inv Rat.sub in
/-- Counterexample to C1 as stated: with an empty-string line label
    serving both stops in the same direction with consistent positions,
    and a snapshot record carrying that same label, the claim's
    hypotheses hold, yet `rutasDirectas` is empty, because
    `filter(Boolean)` drops the empty label from the active-line set. -/
theorem c1_counterexample :
    ((seqToEntry recOrigenVacio ∈ lineasOrigen exEtiquetaVacia) ∧
     (seqToEntry recDestinoVacio ∈ lineasDestino exEtiquetaVacia) ∧
     (seqToEntry recOrigenVacio).linea = some "" ∧
     (seqToEntry recDestinoVacio).linea = some "" ∧
     (seqToEntry recOrigenVacio).sentido = (seqToEntry recDestinoVacio).sentido ∧
     jsLe (seqToEntry recOrigenVacio).puntoKm (seqToEntry recDestinoVacio).puntoKm = true ∧
     (∃ r ∈ exEtiquetaVacia.todasEstimaciones,
        r.etiqLinea = some "" ∧ jsToUpper "" = jsToUpper "")) ∧
    (planificarRuta exEtiquetaVacia).rutasDirectas = [] := by decide

/-- C8: every returned direct candidate's `distanciaKm` is the
    destination entry's position metric minus the origin entry's,
    rounded to two decimals, and is non-negative (the candidate only
    exists under the guard origin position JS-`<=` destination
    position). -/
theorem c8_distance_from_positions (inp : PlanInput) (c : RutaDirecta)
    (h : c ∈ (planificarRuta inp).rutasDirectas) :
    (∃ lo ∈ lineasOrigen inp, ∃ ld ∈ lineasDestino inp,
        jsLe lo.puntoKm ld.puntoKm = true ∧
        c.distanciaKm = jsRound2 (jsSub ld.puntoKm lo.puntoKm)) ∧
    ∃ q, c.distanciaKm = some q ∧ 0 ≤ q := by
  have hall : c ∈ rutasDirectasAll inp :=
    keepFirstBy_subset (List.mem_filter.mp h).1
  obtain ⟨lo, hlo, ld, hld, hg, rfl⟩ := mem_rutasDirectasAll.mp hall
  obtain ⟨-, -, hg3⟩ := hg
  refine ⟨⟨lo, hlo, ld, hld, hg3, by simp [directCandidate]⟩, ?_⟩
  rcases hA : lo.puntoKm with - | a
  · rw [hA] at hg3; simp [jsLe] at hg3
  rcases hB : ld.puntoKm with - | b
  · rw [hA, hB] at hg3; simp [jsLe] at hg3
  rw [hA, hB] at hg3
  have hab : a ≤ b := by simpa [jsLe] using hg3
  refine ⟨((round ((b - a) * 100) : Int) : ℚ) / 100, ?_, ?_⟩
  · simp [directCandidate, hA, hB, jsSub, jsRound2]
  · exact jsRound2_arg_nonneg (by linarith)

unseal Rat.mul Rat.add Rat.inv Rat.sub in
/-- Witness for C8: instantiated on the concrete line-15 candidate
    (whose distance is 4.7 - 1.2 = 3.5). -/
theorem c8_distance_from_positions_witness :
    ((∃ lo ∈ lineasOrigen exDirect, ∃ ld ∈ lineasDestino exDirect,
        jsLe lo.puntoKm ld.puntoKm = true ∧
        exDirectCand.distanciaKm = jsRound2 (jsSub ld.puntoKm lo.puntoKm)) ∧
      ∃ q, exDirectCand.distanciaKm = some q ∧ 0 ≤ q) ∧
    exDirectCand.distanciaKm = some (7 / 2) :=
  ⟨c8_distance_from_positions exDirect exDirectCand (by decide), by decide⟩

/-- C9: the returned `rutasConTransbordo` has at most five entries; it is
    exactly the first five survivors, in discovery order, of the
    active-line filter over the transfer accumulator; and both legs of
    every returned transfer are on active lines. -/
theorem c9_transfer_cap_active (inp : PlanInput) :
    (planificarRuta inp).rutasConTransbordo.length ≤ 5 ∧
    (planificarRuta inp).rutasConTransbordo =
      ((rutasTransbordoAll inp).filter (transferActivo inp)).take 5 ∧
    ∀ r ∈ (planificarRuta inp).rutasConTransbordo,
      (∃ l1, r.tramo1.linea = some l1 ∧ jsToUpper l1 ∈ lineasActivas inp) ∧
      ∃ l2, r.tramo2.linea = some l2 ∧ jsToUpper l2 ∈ lineasActivas inp := by
  refine ⟨List.length_take_le 5 _, rfl, ?_⟩
  intro r hr
  have hr' : r ∈ rutasTransbordoActivas inp := List.take_subset 5 _ hr
  have hact := (List.mem_filter.mp hr').2
  rw [transferActivo, Bool.and_eq_true] at hact
  exact ⟨hasActiva_map_eq_true hact.1, hasActiva_map_eq_true hact.2⟩

unseal Rat.mul Rat.add Rat.inv Rat.sub in
/-- Witness for C9: instantiated on the concrete transfer scenario
    (line 7 to stop 200, then line 12). -/
theorem c9_transfer_cap_active_witness :
    (∃ l1, exTransferCand.tramo1.linea = some l1 ∧
        jsToUpper l1 ∈ lineasActivas exTransfer) ∧
    ∃ l2, exTransferCand.tramo2.linea = some l2 ∧
        jsToUpper l2 ∈ lineasActivas exTransfer :=
  (c9_transfer_cap_active exTransfer).2.2 exTransferCand (by decide)

/-- C10: the first-leg line of a transfer candidate is a function of its
    transfer stop alone: it is the line of the first record of `seqs`
    (the full origin-line sequences) at that stop whose line matches
    some origin entry; hence any two returned transfers sharing a
    transfer stop share their first-leg line. -/
theorem c10_leg1_deterministic (inp : PlanInput) :
    (∀ c1 ∈ (planificarRuta inp).rutasConTransbordo,
      ∀ c2 ∈ (planificarRuta inp).rutasConTransbordo,
        c1.tramo1.paradaTransbordo.numero = c2.tramo1.paradaTransbordo.numero →
        c1.tramo1.linea = c2.tramo1.linea) ∧
    ∀ c ∈ (planificarRuta inp).rutasConTransbordo,
      ∃ s, (seqsOrigen inp).find?
          (findPredOrigen inp c.tramo1.paradaTransbordo.numero) = some s ∧
        c.tramo1.linea = recLinea s := by
  have key : ∀ c ∈ (planificarRuta inp).rutasConTransbordo,
      ∃ s, (seqsOrigen inp).find?
          (findPredOrigen inp c.tramo1.paradaTransbordo.numero) = some s ∧
        c.tramo1.linea = recLinea s := by
    intro c hc
    have hall : c ∈ rutasTransbordoAll inp :=
      (List.mem_filter.mp (List.take_subset 5 _ hc)).1
    obtain ⟨pi, li, ld, s, hs, rfl⟩ := mem_rutasTransbordoAll hall
    exact ⟨s, by simpa [transferCandidate] using hs, by simp [transferCandidate]⟩
  refine ⟨?_, key⟩
  intro c1 hc1 c2 hc2 hnum
  obtain ⟨s1, hs1, hl1⟩ := key c1 hc1
  obtain ⟨s2, hs2, hl2⟩ := key c2 hc2
  rw [hnum] at hs1
  rw [hl1, hl2, Option.some_inj.mp (hs1.symm.trans hs2)]

unseal Rat.mul Rat.add Rat.inv Rat.sub in
/-- Witness for C10: instantiated on the concrete transfer scenario. -/
theorem c10_leg1_deterministic_witness :
    ∃ s, (seqsOrigen exTransfer).find?
        (findPredOrigen exTransfer exTransferCand.tramo1.paradaTransbordo.numero) =
          some s ∧
      exTransferCand.tramo1.linea = recLinea s :=
  (c10_leg1_deterministic exTransfer).2 exTransferCand (by decide)

/-- C5 (amended): the sequence-record normalization is total (never
    throws); a raw direction value whose `parseInt` parse is 1 maps to
    outbound and any other value (present or missing) maps to inbound;
    a MISSING numeric field comes out as 0; a malformed numeric field
    (no parseable numeric prefix) comes out as `NaN`, not 0. -/
theorem c5_normalization_defaults (r : SeqRecord) :
    ((jsParseIntOpt r.sentidoRuta = some 1 → (secuenciaMapRecord r).sentido = "ida") ∧
     (jsParseIntOpt r.sentidoRuta ≠ some 1 → (secuenciaMapRecord r).sentido = "vuelta")) ∧
    (r.puntoKM = none → (secuenciaMapRecord r).puntoKm = some 0) ∧
    (r.posX = none → (secuenciaMapRecord r).coordX = some 0) ∧
    (r.posY = none → (secuenciaMapRecord r).coordY = some 0) ∧
    (∀ v, r.puntoKM = some v → jsParseFloat v = none →
      (secuenciaMapRecord r).puntoKm = none) ∧
    (∀ v, r.posX = some v → jsParseFloat v = none →
      (secuenciaMapRecord r).coordX = none) ∧
    ∀ v, r.posY = some v → jsParseFloat v = none →
      (secuenciaMapRecord r).coordY = none := by
  refine ⟨⟨fun h => ?_, fun h => ?_⟩, fun h => ?_, fun h => ?_, fun h => ?_,
    fun v hv hp => ?_, fun v hv hp => ?_, fun v hv hp => ?_⟩
  · simp [secuenciaMapRecord, dirLabel, h]
  · simp [secuenciaMapRecord, dirLabel, h]
  · simp [secuenciaMapRecord, h]
  · simp [secuenciaMapRecord, h]
  · simp [secuenciaMapRecord, h]
  · simp [secuenciaMapRecord, hv, hp]
  · simp [secuenciaMapRecord, hv, hp]
  · simp [secuenciaMapRecord, hv, hp]

/-- Witness for C5: the all-missing record gets defaulted numerics and
    the inbound label; the record with direction `"01"` gets the
    outbound label. -/
theorem c5_normalization_defaults_witness :
    (secuenciaMapRecord recVacio).puntoKm = some 0 ∧
    (secuenciaMapRecord recVacio).sentido = "vuelta" ∧
    (secuenciaMapRecord recMalformado).sentido = "ida" ∧
    (secuenciaMapRecord recMalformado).puntoKm = none ∧
    (secuenciaMapRecord recCoordMalformada).coordX = none ∧
    (secuenciaMapRecord recCoordMalformada).coordY = none :=
  ⟨(c5_normalization_defaults recVacio).2.1 rfl,
   (c5_normalization_defaults recVacio).1.2 (by decide),
   (c5_normalization_defaults recMalformado).1.1 (by decide),
   (c5_normalization_defaults recMalformado).2.2.2.2.1 "abc" rfl (by decide),
   (c5_normalization_defaults recCoordMalformada).2.2.2.2.2.1 "abc" rfl (by decide),
   (c5_normalization_defaults recCoordMalformada).2.2.2.2.2.2 "xyz" rfl (by decide)⟩

unseal Rat.mul Rat.add Rat.inv in
/-- Counterexample to C5 as stated: the record with raw direction
    `"01"` — a present value different from 1 — maps to outbound, not
    inbound, because `parseInt("01") === 1`; and its malformed position
    metric `"abc"` comes out as `NaN`, not 0. -/
theorem c5_counterexample :
    (recMalformado.sentidoRuta = some "01" ∧ (some "01" : Option String) ≠ some "1" ∧
      (secuenciaMapRecord recMalformado).sentido = "ida") ∧
    (recMalformado.puntoKM = some "abc" ∧
      (secuenciaMapRecord recMalformado).puntoKm = none ∧
      (secuenciaMapRecord recMalformado).puntoKm ≠ some 0) := by decide

/-- C6 (amended): the `planificar_ruta` tool handler rejects equal stop
    ids before the core is invoked, so that caller never invokes
    `planificarRuta` with equal ids; the `ruta_desde_nombres` handler
    performs no such comparison (see the counterexample). -/
theorem c6_equal_ids_rejected :
    (∀ o : String, planificarRutaToolCall o o = none) ∧
    ∀ o d c, planificarRutaToolCall o d = some c → c.1 ≠ c.2 := by
  constructor
  · intro o
    simp [planificarRutaToolCall]
  · intro o d c h
    unfold planificarRutaToolCall at h
    split at h
    · exact absurd h (by simp)
    · next hne =>
      obtain rfl := Option.some_inj.mp h.symm
      exact hne

/-- Witness for C6: concrete equal ids are rejected; a concrete accepted
    call has distinct ids. -/
theorem c6_equal_ids_rejected_witness :
    planificarRutaToolCall "539" "539" = none ∧
    (("539", "1234") : String × String).1 ≠ ("539", "1234").2 :=
  ⟨c6_equal_ids_rejected.1 "539",
   c6_equal_ids_rejected.2 "539" "1234" ("539", "1234") (by decide)⟩

/-- Counterexample to C6 as stated: when both name searches of
    `ruta_desde_nombres` resolve to the same first stop, the handler
    invokes the core with equal origin and destination ids — there is no
    caller-level equality check on this path. -/
theorem c6_counterexample :
    rutaDesdeNombresCall [paradaValdecilla] [paradaValdecilla] =
      some ("539", "539") := by decide

/-- C7: a cache call with a stored snapshot less than 30 s old returns
    it unchanged with no fetch; otherwise the call performs exactly one
    fetch, stores the result with the call's timestamp and returns it;
    consequently two calls within 30 s of each other observe at most one
    fetch between them. -/
theorem c7_cache_ttl :
    (∀ st now f d, st.data = some d → now - st.ts < CACHE_TTL_MS →
        getTodasEstimacionesCached st now f =
          { result := d, state := st, didFetch := false }) ∧
    (∀ st now f, (st.data = none ∨ CACHE_TTL_MS ≤ now - st.ts) →
        getTodasEstimacionesCached st now f =
          { result := f, state := { data := some f, ts := now }, didFetch := true }) ∧
    ∀ st t t' f f', t' - t < CACHE_TTL_MS →
      ¬((getTodasEstimacionesCached st t f).didFetch = true ∧
        (getTodasEstimacionesCached (getTodasEstimacionesCached st t f).state t' f').didFetch
          = true) := by
  refine ⟨fun st now f d h1 h2 => ?_, fun st now f h => ?_, fun st t t' f f' hlt => ?_⟩
  · simp [getTodasEstimacionesCached, h1, h2]
  · rcases h with h | h
    · simp [getTodasEstimacionesCached, h]
    · rcases hd : st.data with - | d
      · simp [getTodasEstimacionesCached, hd]
      · simp [getTodasEstimacionesCached, hd, not_lt.mpr h]
  · rintro ⟨h1, h2⟩
    rcases hd : st.data with - | d
    · have e1 : getTodasEstimacionesCached st t f =
          { result := f, state := { data := some f, ts := t }, didFetch := true } := by
        simp [getTodasEstimacionesCached, hd]
      rw [e1] at h2
      simp [getTodasEstimacionesCached, hlt] at h2
    · by_cases hf : t - st.ts < CACHE_TTL_MS
      · have e1 : getTodasEstimacionesCached st t f =
            { result := d, state := st, didFetch := false } := by
          simp [getTodasEstimacionesCached, hd, hf]
        rw [e1] at h1
        exact Bool.false_ne_true h1
      · have e1 : getTodasEstimacionesCached st t f =
            { result := f, state := { data := some f, ts := t }, didFetch := true } := by
          simp [getTodasEstimacionesCached, hd, hf]
        rw [e1] at h2
        simp [getTodasEstimacionesCached, hlt] at h2

/-- Witness for C7: a fresh hit returns the stored snapshot with no
    fetch; a stale call fetches and restores; two concrete calls 10 s
    apart never fetch twice. -/
theorem c7_cache_ttl_witness :
    (getTodasEstimacionesCached { data := some fr0, ts := 1000 } 5000 fr1 =
      { result := fr0, state := { data := some fr0, ts := 1000 }, didFetch := false }) ∧
    (getTodasEstimacionesCached { data := some fr0, ts := 1000 } 31000 fr1 =
      { result := fr1, state := { data := some fr1, ts := 31000 }, didFetch := true }) ∧
    ¬((getTodasEstimacionesCached { data := none, ts := 0 } 0 fr0).didFetch = true ∧
      (getTodasEstimacionesCached
        (getTodasEstimacionesCached { data := none, ts := 0 } 0 fr0).state 10000
          fr1).didFetch = true) :=
  ⟨c7_cache_ttl.1 { data := some fr0, ts := 1000 } 5000 fr1 fr0 rfl (by decide),
   c7_cache_ttl.2.1 { data := some fr0, ts := 1000 } 31000 fr1 (Or.inr (by decide)),
   c7_cache_ttl.2.2 { data := none, ts := 0 } 0 10000 fr0 fr1 (by decide)⟩

end TusMcp
